import Mathlib

/-!
Shallow embedding of the playwright-browser-service repository
(src/browser.py and src/main.py) in Lean 4, together with theorems
settling the specification claims about it.

Modelling conventions:
* Python strings are Lean `String`s; helpers operating character by
  character work on `String.data : List Char`.
* Python sets built by the configuration parser are modelled as lists of
  their elements; membership and emptiness coincide with the Python set.
* Exceptions are modelled by the inductive `PyExc`; fallible computations
  return `Except PyExc A`.
* The engine (Playwright/Chromium) is an external capability: its effects
  inside a request scope are abstracted as an `Except PyExc A` outcome
  supplied as a parameter, while the bookkeeping the manager itself does
  (readiness check, context creation, interceptor installation, context
  close) is modelled explicitly.
-/

/-! ### Python-level string helpers

Lean core's `String.toLower`, `String.drop`, `String.trim`, … are written
against byte positions and do not reduce inside the kernel, so the Python
string operations the source uses are modelled directly on `List Char`. -/

/-- `str.lower()` (the strings involved are ASCII). -/
def py_lower (s : String) : String := String.mk (s.data.map Char.toLower)

/-- Whether the second list is an initial segment of the first. -/
def starts_with_chars : List Char → List Char → Bool
  | _, [] => true
  | [], _ :: _ => false
  | c :: cs, d :: ds => c == d && starts_with_chars cs ds

/-- `s.startswith(t)`. -/
def py_starts_with (s t : String) : Bool := starts_with_chars s.data t.data

/-- `s.endswith(t)`. -/
def py_ends_with (s t : String) : Bool := starts_with_chars s.data.reverse t.data.reverse

/-- `s[n:]` for ASCII strings. -/
def py_drop (s : String) (n : Nat) : String := String.mk (s.data.drop n)

/-- ASCII whitespace for `str.strip()`. -/
def is_py_space (c : Char) : Bool :=
  c == ' ' || c == '\t' || c == '\n' || c == '\r' || c == '\x0b' || c == '\x0c'

/-- `s.strip()`: remove leading and trailing whitespace. -/
def py_strip (s : String) : String :=
  String.mk (((s.data.dropWhile is_py_space).reverse.dropWhile is_py_space).reverse)

/-- `s.split(",")` on the character list: split at every comma, keeping
empty fields, so the empty string yields one empty field. -/
def split_on_comma : List Char → List (List Char)
  | [] => [[]]
  | c :: rest =>
    if c == ',' then [] :: split_on_comma rest
    else
      match split_on_comma rest with
      | [] => [[c]]
      | g :: gs => (c :: g) :: gs

/-! ### urllib.parse hostname extraction -/

/-- Characters legal in a URL scheme after the first one
(`urllib.parse.scheme_chars`: letters, digits, `+`, `-`, `.`). -/
def is_scheme_char (c : Char) : Bool :=
  c.isAlphanum || c == '+' || c == '-' || c == '.'

/-- Remove a leading `scheme:` from a URL character list, exactly when
`urllib.parse.urlsplit` would recognise one: a `:` at index `i > 0`, the
first character an ASCII letter and all characters before the `:` scheme
characters. Otherwise the input is returned unchanged. -/
def strip_scheme (cs : List Char) : List Char :=
  match cs.findIdx? (· == ':') with
  | none => cs
  | some i =>
    match cs.take i with
    | [] => cs
    | c0 :: rest =>
      if c0.isAlpha && rest.all is_scheme_char then cs.drop (i + 1) else cs

/-- The network-location part of a scheme-stripped URL: present exactly when
the rest starts with `//`, and extends to the first `/`, `?` or `#`
(`urllib.parse._splitnetloc`). -/
def netloc_of (cs : List Char) : List Char :=
  match cs with
  | '/' :: '/' :: rest => rest.takeWhile (fun c => !(c == '/' || c == '?' || c == '#'))
  | _ => []

/-- The part of the netloc after the last `@` (userinfo removal via
`str.rpartition`); the whole netloc when there is no `@`. -/
def after_last_at (cs : List Char) : List Char :=
  (cs.reverse.takeWhile (fun c => c != '@')).reverse

/-- Host part of the hostinfo: a bracketed IPv6 literal when a `[` is
present, otherwise everything before the first `:` (port removal). -/
def host_of_hostinfo (cs : List Char) : List Char :=
  if cs.contains '[' then
    ((cs.dropWhile (fun c => c != '[')).drop 1).takeWhile (fun c => c != ']')
  else
    cs.takeWhile (fun c => c != ':')

/-- Model of `urllib.parse.urlparse(url).hostname`: extract the hostname
from a URL string, lower-cased; `none` when no hostname is present. -/
def urlparse_hostname (url : String) : Option String :=
  let host := host_of_hostinfo (after_last_at (netloc_of (strip_scheme url.data)))
  if host.isEmpty then none else some (py_lower (String.mk host))

/-! ### src/browser.py, lines 88-104: `BrowserManager.is_url_allowed` -/

/-- One iteration of the loop body of `is_url_allowed` (src/browser.py
lines 96-103): lower-case the entry; a `*.`-entry matches when the hostname
equals the part after `*.` or ends with `.` followed by it; any other entry
matches on exact equality. -/
def matches_entry (hostname entry : String) : Bool :=
  let e := py_lower entry
  if py_starts_with e "*." then
    hostname == py_drop e 2 || py_ends_with hostname ("." ++ py_drop e 2)
  else
    hostname == e

/-- `BrowserManager.is_url_allowed` (src/browser.py lines 88-104), with the
manager's `allowed_hosts` set passed explicitly. -/
def is_url_allowed (allowed_hosts : List String) (url : String) : Bool :=
  if allowed_hosts.isEmpty then true
  else
    match urlparse_hostname url with
    | none => false
    | some hostname => allowed_hosts.any (matches_entry (py_lower hostname))

/-- The URL-allowing algorithm as the specification words it (spec section
4.1): empty allow-set allows everything; otherwise parse the hostname,
case-folded, denying when unparseable; a `*.`-entry matches when the
hostname equals the suffix after `*.` or ends with `.` plus that suffix;
other entries match on exact hostname equality; allow iff some entry
matches. Stated separately from `is_url_allowed` to compare the two. -/
def spec_url_allowed (allowed_hosts : List String) (url : String) : Bool :=
  if allowed_hosts.isEmpty then true
  else
    match urlparse_hostname url with
    | none => false
    | some hostname =>
      allowed_hosts.any (fun entry =>
        let e := py_lower entry
        if py_starts_with e "*." then
          py_lower hostname == py_drop e 2
            || py_ends_with (py_lower hostname) ("." ++ py_drop e 2)
        else
          py_lower hostname == e)

/-! ### src/browser.py, lines 16-25: environment parsing helpers -/

/-- An environment: maps a variable name to its value when set. -/
def Env : Type := String → Option String

/-- `_env_bool` (src/browser.py lines 16-20): default when the variable is
unset, otherwise whether the stripped lower-cased value is a truthy word. -/
def env_bool (env : Env) (name : String) (default : Bool) : Bool :=
  match env name with
  | none => default
  | some val => ["1", "true", "yes", "y", "on"].contains (py_lower (py_strip val))

/-- `_parse_csv` (src/browser.py lines 23-25): split the variable's value
(empty when unset) at commas, drop fields that strip to empty, and keep
each remaining field stripped and lower-cased. Python builds a set; the
list of kept fields is its model. -/
def parse_csv (env : Env) (name : String) : List String :=
  (split_on_comma ((env name).getD "").data).filterMap (fun v =>
    if (String.mk v |> py_strip) = "" then none
    else some (py_lower (py_strip (String.mk v))))

/-- Digit-string to number; `none` unless non-empty and all digits. -/
def nat_of_chars (cs : List Char) : Option Nat :=
  if !cs.isEmpty && cs.all Char.isDigit then
    some (cs.foldl (fun acc c => acc * 10 + (c.toNat - '0'.toNat)) 0)
  else none

/-- Model of Python `int(s)`: optional sign around a non-empty digit
string after stripping whitespace; `none` when `int` would raise. -/
def py_int (s : String) : Option Int :=
  let t := py_strip s
  if py_starts_with t "-" then (nat_of_chars (t.data.drop 1)).map (fun n => -(n : Int))
  else if py_starts_with t "+" then (nat_of_chars (t.data.drop 1)).map (fun n => (n : Int))
  else (nat_of_chars t.data).map (fun n => (n : Int))

/-! ### src/browser.py, lines 32-65: `BrowserManager` configuration -/

/-- The immutable configuration a `BrowserManager` is constructed with
(src/browser.py lines 35-45); the Python sets are modelled as lists. -/
structure BrowserManagerCfg where
  headless : Bool := true
  timeout_ms : Int := 30000
  block_resource_types : List String := []
  allowed_hosts : List String := []
deriving DecidableEq

/-- `BrowserManager.from_env` (src/browser.py lines 50-65): reads the
environment; `none` models `int()` raising on a malformed
`REQUEST_TIMEOUT_MS`. When `BLOCK_RESOURCES` is truthy and the parsed
`BLOCK_RESOURCE_TYPES` list is empty, the default block set
`image, media, font` is substituted; the constructor receives the block
list when the flag is truthy or the list is non-empty, else the empty
set. -/
def from_env (env : Env) : Option BrowserManagerCfg :=
  let headless := env_bool env "BROWSER_HEADLESS" true
  match py_int ((env "REQUEST_TIMEOUT_MS").getD "30000") with
  | none => none
  | some timeout_ms =>
    let block_resources := env_bool env "BLOCK_RESOURCES" false
    let block_types0 := parse_csv env "BLOCK_RESOURCE_TYPES"
    let block_types :=
      if block_resources && block_types0.isEmpty then ["image", "media", "font"]
      else block_types0
    some
      { headless := headless
        timeout_ms := timeout_ms
        block_resource_types :=
          if block_resources || !block_types.isEmpty then block_types else []
        allowed_hosts := parse_csv env "ALLOWED_HOSTS" }

/-! ### src/browser.py, lines 67-86: engine lifecycle -/

/-- The mutable state of a `BrowserManager`: whether `self._playwright`
and `self.browser` hold live handles, and how many engine launches have
been performed in total. -/
structure MState where
  pw_live : Bool
  browser_live : Bool
  launches : Nat
deriving DecidableEq

/-- The state of a freshly constructed manager: no handles, no launches. -/
def MState.init : MState := ⟨false, false, 0⟩

/-- `BrowserManager.start` (src/browser.py lines 67-74): under the start
lock, return unchanged when the browser handle is live, else start
playwright and launch one browser. -/
def start_step (s : MState) : MState :=
  if s.browser_live then s
  else { pw_live := true, browser_live := true, launches := s.launches + 1 }

/-- `BrowserManager.stop` (src/browser.py lines 76-83): under the start
lock, close the browser if live and stop playwright if live, clearing
both handles. -/
def stop_step (s : MState) : MState :=
  { pw_live := false, browser_live := false, launches := s.launches }

/-- `BrowserManager.is_ready` (src/browser.py lines 85-86):
`self.browser is not None`. -/
def is_ready (s : MState) : Bool := s.browser_live

/-- A lifecycle call: `start()` or `stop()`. -/
inductive LifecycleOp
  | startOp
  | stopOp
deriving DecidableEq

/-- Apply one lifecycle call to the manager state. -/
def apply_op (s : MState) : LifecycleOp → MState
  | .startOp => start_step s
  | .stopOp => stop_step s

/-- Run a sequence of lifecycle calls from the freshly constructed
manager. -/
def run_ops (ops : List LifecycleOp) : MState := ops.foldl apply_op MState.init

/-! ### Exceptions, responses and the error taxonomy -/

/-- The exceptions that can cross the manager/dispatcher boundary:
Playwright's `TimeoutError`, any other Playwright `Error` (carrying its
message), `BrowserUnavailableError`, a `TypeError` from a bad call, and
any other exception. -/
inductive PyExc
  | timeout_error
  | playwright_error (msg : String)
  | browser_unavailable (msg : String)
  | type_error (msg : String)
  | other_error (msg : String)
deriving DecidableEq

/-- `_error_detail` (src/main.py lines 16-17): an error body with a
`type` field and a `message` field. -/
structure ErrorDetail where
  type : String
  message : String
deriving DecidableEq

/-- Build the error body, as `_error_detail` does. -/
def error_detail (kind : String) (message : String) : ErrorDetail :=
  { type := kind, message := message }

/-- An HTTP response from a handler: a success value or a status paired
with an error body. -/
inductive Resp (α : Type)
  | ok (value : α)
  | err (status : Nat) (detail : ErrorDetail)
deriving DecidableEq

/-- The dispatcher's `except` chain, identical in all three POST handlers
(src/main.py lines 99-106, 128-135, 153-160): timeout to 504, other
Playwright errors to 502 with the engine's message verbatim,
`BrowserUnavailableError` to 503, anything else to 500. -/
def handle_exceptions {α : Type} : PyExc → Resp α
  | .timeout_error => .err 504 (error_detail "timeout" "Navigation timed out")
  | .playwright_error m => .err 502 (error_detail "playwright_error" m)
  | .browser_unavailable m => .err 503 (error_detail "browser_unavailable" m)
  | .type_error m => .err 500 (error_detail "internal_error" m)
  | .other_error m => .err 500 (error_detail "internal_error" m)

/-! ### src/browser.py, lines 106-132: `page_context` -/

/-- The route interceptor closure `route_handler` (src/browser.py lines
119-123), as the predicate deciding whether a request is aborted: abort
exactly when the request's resource type, lower-cased, is in the
manager's blocked set; otherwise the request continues. -/
def route_handler_aborts (block_resource_types : List String) (resource_type : String) : Bool :=
  block_resource_types.contains (py_lower resource_type)

deriving instance DecidableEq for Except

/-- What one use of `async with page_context(...) as page: <body>`
produced: the overall outcome, how many browsing contexts were created,
how many times `context.close()` was called, and whether the request
interceptor was installed on the context. -/
structure CtxRun (α : Type) where
  outcome : Except PyExc α
  contexts_created : Nat
  close_calls : Nat
  interceptor_installed : Bool
deriving DecidableEq

/-- The `TypeError` message for calling `page_context` without its
required keyword-only arguments. -/
def page_context_type_error : PyExc :=
  .type_error "page_context missing required keyword-only arguments width and height"

/-- One use of `BrowserManager.page_context` (src/browser.py lines
106-132) under a caller's `async with` scope.

`viewport` models the call's keyword arguments: `none` is a call with no
arguments, which raises `TypeError` at generator creation since `width`
and `height` are required keyword-only parameters — before the function
body runs, so no readiness check and no context creation happen.

Otherwise the body runs: when the browser handle is not live it raises
`BrowserUnavailableError` before any context is created; else one context
is created (with the interceptor installed iff the blocked set is
non-empty), the caller's use of the page produces `body`, and the
`finally` block calls `context.close()` exactly once, whose outcome is
`close_result`. Python's `try/finally` makes an exception raised by
`close` replace the body's outcome; otherwise the body's outcome stands. -/
def page_context {α : Type} (cfg : BrowserManagerCfg) (ready : Bool)
    (viewport : Option (Nat × Nat)) (body : Except PyExc α)
    (close_result : Except PyExc Unit) : CtxRun α :=
  match viewport with
  | none => ⟨.error page_context_type_error, 0, 0, false⟩
  | some _ =>
    if !ready then ⟨.error (.browser_unavailable "Browser is not started"), 0, 0, false⟩
    else
      let installed := !cfg.block_resource_types.isEmpty
      match close_result with
      | .ok _ => ⟨body, 1, 1, installed⟩
      | .error e => ⟨.error e, 1, 1, installed⟩

/-! ### src/main.py: request models and handlers -/

/-- A navigation milestone (`wait_until` in Playwright's `goto`). -/
inductive WaitUntil
  | load
  | domcontentloaded
  | networkidle
deriving DecidableEq

/-- `ScreenshotRequest` (src/main.py lines 51-55), with its defaults. -/
structure ScreenshotRequest where
  url : String
  width : Nat := 1280
  height : Nat := 800
  full_page : Bool := false

/-- `NavigateRequest` (src/main.py lines 58-60). -/
structure NavigateRequest where
  url : String
  wait_until : Option WaitUntil := none

/-- `ExecuteRequest` (src/main.py lines 63-65). -/
structure ExecuteRequest where
  url : String
  script : String

/-- The successful payload of `/navigate`: title, final URL, html. -/
structure NavigateOk where
  title : String
  url : String
  html : String
deriving DecidableEq

/-- The arguments of a `page.goto` call: target URL, milestone, timeout. -/
structure GotoCall where
  url : String
  wait_until : WaitUntil
  timeout : Int
deriving DecidableEq

/-- The `goto` issued by the screenshot handler (src/main.py lines 93-97):
always milestone `load`, under the manager's timeout. -/
def screenshot_goto (cfg : BrowserManagerCfg) (req : ScreenshotRequest) : GotoCall :=
  { url := req.url, wait_until := .load, timeout := cfg.timeout_ms }

/-- The `goto` issued by the navigate handler (src/main.py lines 116,
120-124): the caller-chosen milestone, defaulting to `load` when absent
(`payload.wait_until or "load"`), under the manager's timeout. -/
def navigate_goto (cfg : BrowserManagerCfg) (req : NavigateRequest) : GotoCall :=
  { url := req.url, wait_until := req.wait_until.getD .load, timeout := cfg.timeout_ms }

/-- The `goto` issued by the execute handler (src/main.py lines 147-151):
always milestone `domcontentloaded`, under the manager's timeout. -/
def execute_goto (cfg : BrowserManagerCfg) (req : ExecuteRequest) : GotoCall :=
  { url := req.url, wait_until := .domcontentloaded, timeout := cfg.timeout_ms }

/-- `verify_token` (src/main.py lines 20-32). `api_token` is the
`API_TOKEN` environment value; `auth_header` the request's
`authorization` header. Auth is bypassed when no token is configured
(`if not API_TOKEN`, so unset or empty). A header (defaulting to the
empty string) not starting, case-insensitively, with the `Bearer ` scheme
is a 401; otherwise the part after the first space, stripped, must equal
the configured token, else 403. -/
inductive AuthOutcome
  | passed
  | unauthorized_401
  | forbidden_403
deriving DecidableEq

/-- Characters after the first space, `s.split(" ", 1)[1]`; empty when
there is no space. -/
def after_first_space : List Char → List Char
  | [] => []
  | c :: cs => if c == ' ' then cs else after_first_space cs

/-- The token presented by an authorization header:
`auth.split(" ", 1)[1].strip()`. -/
def presented_token (auth : String) : String :=
  py_strip (String.mk (after_first_space auth.data))

/-- `verify_token` itself; see `AuthOutcome` for the reading. -/
def verify_token (api_token : Option String) (auth_header : Option String) : AuthOutcome :=
  match api_token with
  | none => .passed
  | some tok =>
    if tok = "" then .passed
    else
      let auth := auth_header.getD ""
      if !(py_starts_with (py_lower auth) "bearer ") then .unauthorized_401
      else if presented_token auth ≠ tok then .forbidden_403
      else .passed

/-- `screenshot` (src/main.py lines 86-108): `_require_browser`, then
`_ensure_url_allowed`, then the scoped context with the request's
viewport; the engine work inside the scope is abstracted as
`engine_result` (the base64-encoded screenshot on success). -/
def screenshot_handler (cfg : BrowserManagerCfg) (ready : Bool) (req : ScreenshotRequest)
    (engine_result : Except PyExc String) (close_result : Except PyExc Unit) : Resp String :=
  if !ready then .err 503 (error_detail "browser_unavailable" "Browser is not ready")
  else if !(is_url_allowed cfg.allowed_hosts req.url) then
    .err 403 (error_detail "forbidden" "URL is not allowed")
  else
    match (page_context cfg ready (some (req.width, req.height)) engine_result close_result).outcome with
    | .ok image_base64 => .ok image_base64
    | .error e => handle_exceptions e

/-- `navigate` (src/main.py lines 111-137): `_require_browser`, then
`_ensure_url_allowed`, then `page_context()` — called with no arguments,
although `width` and `height` are required keyword-only parameters. -/
def navigate_handler (cfg : BrowserManagerCfg) (ready : Bool) (req : NavigateRequest)
    (engine_result : Except PyExc NavigateOk) (close_result : Except PyExc Unit) :
    Resp NavigateOk :=
  if !ready then .err 503 (error_detail "browser_unavailable" "Browser is not ready")
  else if !(is_url_allowed cfg.allowed_hosts req.url) then
    .err 403 (error_detail "forbidden" "URL is not allowed")
  else
    match (page_context cfg ready none engine_result close_result).outcome with
    | .ok v => .ok v
    | .error e => handle_exceptions e

/-- `execute` (src/main.py lines 140-162): like `navigate`, the scoped
context is requested with `page_context()` and no arguments; the script's
serialized result is the abstract success value. -/
def execute_handler (cfg : BrowserManagerCfg) (ready : Bool) (req : ExecuteRequest)
    (engine_result : Except PyExc String) (close_result : Except PyExc Unit) : Resp String :=
  if !ready then .err 503 (error_detail "browser_unavailable" "Browser is not ready")
  else if !(is_url_allowed cfg.allowed_hosts req.url) then
    .err 403 (error_detail "forbidden" "URL is not allowed")
  else
    match (page_context cfg ready none engine_result close_result).outcome with
    | .ok v => .ok v
    | .error e => handle_exceptions e

/-! ### Claim theorems -/

/-- C1: `is_url_allowed` follows the specified algorithm: an empty
allow-set allows every URL; otherwise an unparseable hostname is denied
and the result is exactly the specification's per-entry matching
(`spec_url_allowed`); in particular `notexample.com` does not match entry
`example.com` while bare `example.org` matches `*.example.org`, and the
specification's concrete examples hold. -/
theorem is_url_allowed_follows_spec :
    (∀ url, is_url_allowed [] url = true)
    ∧ (∀ allowed url, allowed ≠ [] → urlparse_hostname url = none →
        is_url_allowed allowed url = false)
    ∧ (∀ allowed url, is_url_allowed allowed url = spec_url_allowed allowed url)
    ∧ is_url_allowed ["example.com", "*.example.org"] "https://notexample.com" = false
    ∧ is_url_allowed ["example.com", "*.example.org"] "https://example.com/x" = true
    ∧ is_url_allowed ["example.com", "*.example.org"] "https://sub.example.org/y" = true
    ∧ is_url_allowed ["example.com", "*.example.org"] "https://evil.com" = false
    ∧ is_url_allowed ["*.example.org"] "https://example.org" = true := by
  refine ⟨?_, ?_, ?_, by decide, by decide, by decide, by decide, by decide⟩
  · intro url
    simp [is_url_allowed]
  · intro allowed url hne hnone
    cases allowed with
    | nil => exact absurd rfl hne
    | cons a rest => simp [is_url_allowed, hnone]
  · intro allowed url
    rfl

/-- C1 witness: a concrete non-empty allow-set and a URL with no
parseable hostname are denied. -/
theorem is_url_allowed_follows_spec_witness :
    is_url_allowed ["example.com"] "relative/path" = false :=
  is_url_allowed_follows_spec.2.1 ["example.com"] "relative/path" (by decide) (by decide)

/-- C2 counterexample: when the caller's block succeeds but
`context.close()` in the `finally` raises, the close failure is not
swallowed — it replaces the caller's successful outcome, because the
`finally` has no exception guard of its own. -/
theorem page_context_close_failure_masks_outcome :
    (page_context {} true (some (1280, 800)) (Except.ok ())
        (Except.error (PyExc.other_error "close failed"))).outcome
      = Except.error (PyExc.other_error "close failed")
    ∧ (page_context {} true (some (1280, 800)) (Except.ok ())
        (Except.error (PyExc.other_error "close failed"))).outcome
      ≠ Except.ok () := by
  constructor
  · rfl
  · decide

/-- C2 amended: on every exit path of the caller's scope — normal return
or an exception such as a timeout — the created context is destroyed
exactly once (one context created, `close` called once); but a failure
during destruction propagates, replacing the caller's original outcome,
rather than being swallowed. -/
theorem page_context_teardown_exactly_once :
    ∀ (cfg : BrowserManagerCfg) (w h : Nat) (body : Except PyExc Unit)
      (close_result : Except PyExc Unit),
      (page_context cfg true (some (w, h)) body close_result).contexts_created = 1
      ∧ (page_context cfg true (some (w, h)) body close_result).close_calls = 1
      ∧ (page_context cfg true (some (w, h)) body close_result).outcome
          = (match close_result with
             | .ok _ => body
             | .error e => .error e) := by
  intro cfg w h body close_result
  cases close_result <;> simp [page_context]

/-- C4: a properly formed `page_context` call made while the engine
handle is not running fails with the engine-unavailable error and creates
no browsing context. -/
theorem page_context_rejects_when_not_ready :
    ∀ (cfg : BrowserManagerCfg) (w h : Nat) (body : Except PyExc Unit)
      (close_result : Except PyExc Unit),
      (page_context cfg false (some (w, h)) body close_result).outcome
          = Except.error (PyExc.browser_unavailable "Browser is not started")
      ∧ (page_context cfg false (some (w, h)) body close_result).contexts_created = 0 := by
  intro cfg w h body close_result
  simp [page_context]

/-- C5: context creation installs the network-request interceptor exactly
when the blocked-resource-type set is non-empty, and the interceptor
aborts a request iff the request's resource-type label, case-folded, is
in the blocked set. -/
theorem resource_blocking_route_handler :
    ∀ (cfg : BrowserManagerCfg) (w h : Nat) (body close_result : Except PyExc Unit),
      (cfg.block_resource_types ≠ [] →
          (page_context cfg true (some (w, h)) body close_result).interceptor_installed = true)
      ∧ (cfg.block_resource_types = [] →
          (page_context cfg true (some (w, h)) body close_result).interceptor_installed = false)
      ∧ ∀ resource_type,
          route_handler_aborts cfg.block_resource_types resource_type = true
            ↔ py_lower resource_type ∈ cfg.block_resource_types := by
  intro cfg w h body close_result
  refine ⟨?_, ?_, ?_⟩
  · intro hne
    cases hb : cfg.block_resource_types with
    | nil => exact absurd hb hne
    | cons a rest => cases close_result <;> simp [page_context, hb]
  · intro hb
    cases close_result <;> simp [page_context, hb]
  · intro resource_type
    simp [route_handler_aborts, List.contains, List.elem_iff]

/-- C5 witness: with blocked set containing `image`, the interceptor is
installed and a request labelled `Image` is aborted. -/
theorem resource_blocking_route_handler_witness :
    (page_context { block_resource_types := ["image"] } true (some (800, 600))
        (Except.ok ()) (Except.ok ())).interceptor_installed = true
    ∧ route_handler_aborts ["image"] "Image" = true :=
  ⟨(resource_blocking_route_handler { block_resource_types := ["image"] } 800 600
      (Except.ok ()) (Except.ok ())).1 (by decide),
   ((resource_blocking_route_handler { block_resource_types := ["image"] } 800 600
      (Except.ok ()) (Except.ok ())).2.2 "Image").mpr (by decide)⟩

/-- C3: the navigate and execute handlers request the scoped context with
`page_context()` and no arguments, but `width` and `height` are required
keyword-only parameters, so even with the engine ready and the URL
allowed the call raises `TypeError`: no context is created and the
handlers answer 500 internal error instead of proceeding against a page
under a default viewport. -/
theorem navigate_execute_acquisition_type_error :
    ∀ (cfg : BrowserManagerCfg) (nreq : NavigateRequest) (ereq : ExecuteRequest)
      (nbody : Except PyExc NavigateOk) (ebody : Except PyExc String)
      (close1 close2 : Except PyExc Unit),
      is_url_allowed cfg.allowed_hosts nreq.url = true →
      is_url_allowed cfg.allowed_hosts ereq.url = true →
      navigate_handler cfg true nreq nbody close1
          = .err 500 (error_detail "internal_error"
              "page_context missing required keyword-only arguments width and height")
      ∧ execute_handler cfg true ereq ebody close2
          = .err 500 (error_detail "internal_error"
              "page_context missing required keyword-only arguments width and height")
      ∧ (page_context cfg true (none : Option (Nat × Nat)) nbody close1).contexts_created = 0 := by
  intro cfg nreq ereq nbody ebody close1 close2 hn he
  refine ⟨?_, ?_, rfl⟩
  · simp [navigate_handler, hn, page_context, page_context_type_error, handle_exceptions]
  · simp [execute_handler, he, page_context, page_context_type_error, handle_exceptions]

/-- C3 witness: a concrete navigate request against a ready engine with
an empty allow-list is answered 500 internal error. -/
theorem navigate_execute_acquisition_type_error_witness :
    navigate_handler {} true { url := "https://example.com" }
        (Except.ok { title := "t", url := "u", html := "h" }) (Except.ok ())
      = .err 500 (error_detail "internal_error"
          "page_context missing required keyword-only arguments width and height") :=
  (navigate_execute_acquisition_type_error {} { url := "https://example.com" }
    { url := "https://example.com", script := "1 + 1" }
    (Except.ok { title := "t", url := "u", html := "h" }) (Except.ok "2")
    (Except.ok ()) (Except.ok ()) (by decide) (by decide)).1

/-- C6: with a non-empty configured token, a request whose authorization
header (missing headers count as empty) does not carry the Bearer scheme
is a 401; a Bearer request presenting a token different from the
configured one is a 403; presenting the configured token passes. With no
token configured (unset or empty), every request passes. -/
theorem verify_token_auth_semantics :
    (∀ h, verify_token none h = .passed)
    ∧ (∀ h, verify_token (some "") h = .passed)
    ∧ (∀ tok h, tok ≠ "" →
        (py_starts_with (py_lower (h.getD "")) "bearer " = false →
            verify_token (some tok) h = .unauthorized_401)
        ∧ (py_starts_with (py_lower (h.getD "")) "bearer " = true →
            (presented_token (h.getD "") ≠ tok →
                verify_token (some tok) h = .forbidden_403)
            ∧ (presented_token (h.getD "") = tok →
                verify_token (some tok) h = .passed))) := by
  refine ⟨fun h => rfl, fun h => rfl, ?_⟩
  intro tok h htok
  constructor
  · intro hpre
    simp [verify_token, htok, hpre]
  · intro hpre
    constructor
    · intro hne
      simp [verify_token, htok, hpre, hne]
    · intro heq
      simp [verify_token, htok, hpre, heq]

/-- C6 witness: the configured token `secret` presented as
`Bearer secret` passes authentication. -/
theorem verify_token_auth_semantics_witness :
    verify_token (some "secret") (some "Bearer secret") = .passed :=
  ((verify_token_auth_semantics.2.2 "secret" (some "Bearer secret")
    (by decide)).2 (by decide)).2 (by decide)

/-- C7: the dispatcher's exception mapping, shared by all three
operations, sends a timeout to 504 type `timeout`, a non-timeout engine
error to 502 with the engine's message preserved verbatim, an
engine-unavailable error to 503, and anything else to 500 type
`internal_error`; every error body has the type/message shape; and a
failing operation (the screenshot handler, whose scope is reachable)
answers exactly with this mapping. -/
theorem error_taxonomy_mapping :
    ((handle_exceptions .timeout_error : Resp String)
        = .err 504 (error_detail "timeout" "Navigation timed out"))
    ∧ (∀ m, (handle_exceptions (.playwright_error m) : Resp String)
        = .err 502 (error_detail "playwright_error" m))
    ∧ (∀ m, (handle_exceptions (.browser_unavailable m) : Resp String)
        = .err 503 (error_detail "browser_unavailable" m))
    ∧ (∀ m, (handle_exceptions (.type_error m) : Resp String)
        = .err 500 (error_detail "internal_error" m))
    ∧ (∀ m, (handle_exceptions (.other_error m) : Resp String)
        = .err 500 (error_detail "internal_error" m))
    ∧ (∀ e : PyExc, ∃ status kind message,
        (handle_exceptions e : Resp String) = .err status (error_detail kind message))
    ∧ (∀ (cfg : BrowserManagerCfg) (req : ScreenshotRequest) (e : PyExc),
        is_url_allowed cfg.allowed_hosts req.url = true →
        screenshot_handler cfg true req (Except.error e) (Except.ok ())
          = handle_exceptions e) := by
  refine ⟨rfl, fun m => rfl, fun m => rfl, fun m => rfl, fun m => rfl, ?_, ?_⟩
  · intro e
    cases e <;> exact ⟨_, _, _, rfl⟩
  · intro cfg req e hallow
    cases e <;> simp [screenshot_handler, hallow, page_context, handle_exceptions]

/-- C7 witness: a concrete screenshot request whose navigation times out
is answered by the taxonomy's 504 mapping. -/
theorem error_taxonomy_mapping_witness :
    screenshot_handler {} true { url := "https://example.com" }
        (Except.error PyExc.timeout_error) (Except.ok ())
      = handle_exceptions PyExc.timeout_error :=
  error_taxonomy_mapping.2.2.2.2.2.2 {} { url := "https://example.com" }
    PyExc.timeout_error (by decide)

/-- Helper: along every start/stop sequence the playwright handle is live
exactly when the browser handle is, since start sets both and stop clears
both. -/
theorem run_ops_pw_eq_browser (ops : List LifecycleOp) :
    (run_ops ops).pw_live = (run_ops ops).browser_live := by
  have key : ∀ (l : List LifecycleOp) (s : MState), s.pw_live = s.browser_live →
      (l.foldl apply_op s).pw_live = (l.foldl apply_op s).browser_live := by
    intro l
    induction l with
    | nil => intro s hs; exact hs
    | cons op rest ih =>
      intro s hs
      apply ih
      cases op with
      | startOp =>
        by_cases hb : s.browser_live
        · simpa [apply_op, start_step, hb] using hs
        · simp [apply_op, start_step, hb]
      | stopOp => simp [apply_op, stop_step]
  exact key ops MState.init rfl

/-- Helper: `start` always leaves the browser handle live. -/
theorem start_step_browser_live (s : MState) : (start_step s).browser_live = true := by
  by_cases hb : s.browser_live
  · simp [start_step, hb]
  · simp [start_step, hb]

/-- C8: the engine lifecycle state machine, over every sequence of
start/stop calls from a fresh manager: `start` on a running engine is a
no-op leaving exactly one live engine handle; `stop` on a non-running
engine (including before any start) is a no-op (and, being a total
function, raises nothing); `is_ready` is false initially, true after a
completed `start`, and false after a `stop`. -/
theorem engine_lifecycle_state_machine :
    (∀ ops, is_ready (run_ops ops) = true →
        start_step (run_ops ops) = run_ops ops
        ∧ (if (start_step (run_ops ops)).browser_live then 1 else 0) = 1)
    ∧ (∀ ops, is_ready (run_ops ops) = false → stop_step (run_ops ops) = run_ops ops)
    ∧ is_ready (run_ops []) = false
    ∧ (∀ ops, is_ready (run_ops (ops ++ [LifecycleOp.startOp])) = true)
    ∧ (∀ ops, is_ready (run_ops (ops ++ [LifecycleOp.stopOp])) = false) := by
  refine ⟨?_, ?_, rfl, ?_, ?_⟩
  · intro ops h
    simp [is_ready] at h
    constructor
    · simp [start_step, h]
    · simp [start_step_browser_live]
  · intro ops h
    have hpw := run_ops_pw_eq_browser ops
    simp [is_ready] at h
    cases hrun : run_ops ops with
    | mk pw br l =>
      rw [hrun] at h hpw
      simp at h hpw
      subst h
      subst hpw
      rfl
  · intro ops
    rw [run_ops, List.foldl_append]
    simpa [apply_op, is_ready] using start_step_browser_live _
  · intro ops
    rw [run_ops, List.foldl_append]
    simp [apply_op, is_ready, stop_step]

/-- C8 witness: start after a completed start is a no-op, and stop on the
fresh manager is a no-op. -/
theorem engine_lifecycle_state_machine_witness :
    start_step (run_ops [LifecycleOp.startOp]) = run_ops [LifecycleOp.startOp]
    ∧ stop_step (run_ops []) = run_ops [] :=
  ⟨(engine_lifecycle_state_machine.1 [LifecycleOp.startOp] (by decide)).1,
   engine_lifecycle_state_machine.2.1 [] (by decide)⟩

/-- C9: the navigation each operation performs waits for its specified
milestone — screenshot always `load`; navigate the caller-chosen
milestone among the three, defaulting to `load`; execute always
`domcontentloaded` — and each is bounded by the policy's configured
per-operation timeout. -/
theorem navigation_milestones :
    (∀ (cfg : BrowserManagerCfg) (req : ScreenshotRequest),
        (screenshot_goto cfg req).wait_until = .load
        ∧ (screenshot_goto cfg req).timeout = cfg.timeout_ms)
    ∧ (∀ (cfg : BrowserManagerCfg) (req : NavigateRequest),
        (req.wait_until = none → (navigate_goto cfg req).wait_until = .load)
        ∧ (∀ w, req.wait_until = some w → (navigate_goto cfg req).wait_until = w)
        ∧ (navigate_goto cfg req).timeout = cfg.timeout_ms)
    ∧ (∀ (cfg : BrowserManagerCfg) (req : ExecuteRequest),
        (execute_goto cfg req).wait_until = .domcontentloaded
        ∧ (execute_goto cfg req).timeout = cfg.timeout_ms) := by
  refine ⟨fun cfg req => ⟨rfl, rfl⟩, ?_, fun cfg req => ⟨rfl, rfl⟩⟩
  intro cfg req
  refine ⟨?_, ?_, rfl⟩
  · intro hn
    simp [navigate_goto, hn]
  · intro w hw
    simp [navigate_goto, hw]

/-- C9 witness: a navigate request supplying no milestone navigates
waiting for `load`. -/
theorem navigation_milestones_witness :
    (navigate_goto {} { url := "https://example.com" }).wait_until = .load :=
  (navigation_milestones.2.1 {} { url := "https://example.com" }).1 rfl

/-- C10: when the manager is built from the environment, resource
blocking is activated with the explicitly listed types whenever
`BLOCK_RESOURCE_TYPES` parses non-empty, regardless of the
`BLOCK_RESOURCES` flag; the default blocked set of image, media and font
is used exactly when the flag is truthy and the explicit list is empty
(empty blocking otherwise); and every parsed list entry is the stripped,
lower-cased form of one comma-separated field. -/
theorem from_env_resource_blocking :
    ∀ (env : Env) (cfg : BrowserManagerCfg), from_env env = some cfg →
      (parse_csv env "BLOCK_RESOURCE_TYPES" ≠ [] →
          cfg.block_resource_types = parse_csv env "BLOCK_RESOURCE_TYPES")
      ∧ (env_bool env "BLOCK_RESOURCES" false = true ∧
            parse_csv env "BLOCK_RESOURCE_TYPES" = [] →
          cfg.block_resource_types = ["image", "media", "font"])
      ∧ (env_bool env "BLOCK_RESOURCES" false = false ∧
            parse_csv env "BLOCK_RESOURCE_TYPES" = [] →
          cfg.block_resource_types = [])
      ∧ ∀ s ∈ parse_csv env "BLOCK_RESOURCE_TYPES",
          ∃ v ∈ split_on_comma ((env "BLOCK_RESOURCE_TYPES").getD "").data,
            py_strip (String.mk v) ≠ "" ∧ s = py_lower (py_strip (String.mk v)) := by
  intro env cfg hcfg
  rw [from_env] at hcfg
  cases hti : py_int ((env "REQUEST_TIMEOUT_MS").getD "30000") with
  | none => rw [hti] at hcfg; exact absurd hcfg (by simp)
  | some t =>
    rw [hti] at hcfg
    simp only [Option.some.injEq] at hcfg
    subst hcfg
    refine ⟨?_, ?_, ?_, ?_⟩
    · intro hne
      cases hflag : env_bool env "BLOCK_RESOURCES" false <;>
        cases hlist : parse_csv env "BLOCK_RESOURCE_TYPES" <;>
          simp_all
    · intro ⟨hflag, hlist⟩
      simp [hflag, hlist]
    · intro ⟨hflag, hlist⟩
      simp [hflag, hlist]
    · intro s hs
      rw [parse_csv, List.mem_filterMap] at hs
      obtain ⟨v, hv, hfv⟩ := hs
      by_cases hstrip : py_strip (String.mk v) = ""
      · rw [if_pos hstrip] at hfv
        exact absurd hfv (by simp)
      · rw [if_neg hstrip] at hfv
        simp only [Option.some.injEq] at hfv
        exact ⟨v, hv, hstrip, hfv.symm⟩

/-- A concrete environment for the witness: only an explicit
`BLOCK_RESOURCE_TYPES` list is set; the blocking flag is unset. -/
def sample_env : Env :=
  fun name => if name = "BLOCK_RESOURCE_TYPES" then some " Image ,media" else none

/-- C10 witness: from `sample_env` (flag unset, explicit list non-empty)
the manager's blocked set is the parsed, trimmed, lower-cased list. -/
theorem from_env_resource_blocking_witness :
    (BrowserManagerCfg.block_resource_types
        { timeout_ms := 30000, block_resource_types := ["image", "media"] })
      = parse_csv sample_env "BLOCK_RESOURCE_TYPES" :=
  (from_env_resource_blocking sample_env
    { timeout_ms := 30000, block_resource_types := ["image", "media"] }
    (by decide)).1 (by decide)
